import Mathlib

/-!
Verification development for the WASDE dashboard extraction engine
(src/update_wasde.py). The extraction core is embedded shallowly: sheets
are lists of rows of typed cells (xlrd hands the script exactly that),
Python floats are modelled as rationals, and Python exceptions
(IndexError from out-of-range column access) are modelled by Option,
with none standing for a raised exception.
-/

namespace Wasde

/-- A raw spreadsheet cell as decoded by xlrd: a number, a text string, or
the empty cell (xlrd reports an empty cell's value as the empty string). -/
inductive Cell where
| num (x : ℚ)
| text (s : String)
| empty
deriving DecidableEq

/-- A sheet row, as produced by read_sheet (update_wasde.py lines 69-75):
the list of cell values of one spreadsheet row. -/
abbrev Row := List Cell

/-- A sheet: the list of rows returned by read_sheet. -/
abbrev Sheet := List Row

/-- Python str() applied to a cell value. Text cells stringify to their
contents and the empty cell to the empty string. A numeric cell
stringifies through Python float repr, whose exact digits no extracted
label ever depends on; we render the rational with toString. -/
def cellStr : Cell → String
| Cell.num x => toString x
| Cell.text s => s
| Cell.empty => ""

/-- Python str.strip() on a list of characters: drop leading and trailing
whitespace. -/
def stripChars (l : List Char) : List Char :=
  ((l.dropWhile Char.isWhitespace).reverse.dropWhile Char.isWhitespace).reverse

/-- Python str.strip(). -/
def pyStrip (s : String) : String :=
  String.mk (stripChars s.data)

/-- Python str.startswith(pre): case-sensitive exact prefix test. -/
def pyStartswith (s pre : String) : Bool :=
  pre.data.isPrefixOf s.data

/-- Value of a nonempty digit run, none as soon as a non-digit appears. -/
def digitsValGo : List Char → ℕ → Option ℕ
| [], acc => some acc
| c :: rest, acc =>
    if c.isDigit then digitsValGo rest (acc * 10 + (c.toNat - 48)) else none

/-- Value of a digit run; none when empty or containing a non-digit. -/
def digitsVal : List Char → Option ℕ
| [] => none
| l => digitsValGo l 0

/-- Split a character list at its first dot. -/
def splitDot : List Char → List Char × Option (List Char)
| [] => ([], none)
| c :: rest =>
    if c = '.' then ([], some rest)
    else
      let p := splitDot rest
      (c :: p.1, p.2)

/-- Unsigned decimal literal as Python float() accepts it: digits, or
digits on either side of one dot with at least one digit present. -/
def parseUnsigned (l : List Char) : Option ℚ :=
  match splitDot l with
  | (a, none) => (digitsVal a).map (fun n => (n : ℚ))
  | (a, some b) =>
      if a = [] ∧ b = [] then none
      else
        match (if a = [] then some 0 else digitsVal a),
              (if b = [] then some 0 else digitsVal b) with
        | some ai, some bi => some ((ai : ℚ) + (bi : ℚ) / ((10 : ℚ) ^ b.length))
        | _, _ => none

/-- Python float() applied to a string: strip surrounding whitespace, then
an optionally signed decimal literal; none models ValueError. Exotic
accepted forms (exponents, inf, nan, underscores) never occur in the
sheets and are modelled as unparseable. -/
def pyFloatOfString (s : String) : Option ℚ :=
  match stripChars s.data with
  | '-' :: rest => (parseUnsigned rest).map (fun q => -q)
  | '+' :: rest => parseUnsigned rest
  | l => parseUnsigned l

/-- safe(val) (update_wasde.py lines 43-48): float(val) if val != '' else 0,
with ValueError/TypeError degraded to 0. The empty cell is xlrd's '', so
it takes the else branch; a numeric cell passes through float() unchanged;
an unparseable string degrades to 0. -/
def safe : Cell → ℚ
| Cell.num x => x
| Cell.empty => 0
| Cell.text s => if s = "" then 0 else (pyFloatOfString s).getD 0

/-- The row-label test str(rows[i][lc]).strip().startswith(label) shared by
all the extractors (column lc is 0 except for the wheat by-class block).
none models the IndexError raised when row i has no column lc; an i past
the end of the sheet also errors, as Python rows[i] would. -/
def testAt (rows : Sheet) (label : String) (lc i : ℕ) : Option Bool :=
  Option.map (fun c => pyStartswith (pyStrip (cellStr c)) label)
    ((rows.getD i []).get? lc)

/-- Column extraction [safe(row[j]) for j in cols]: one coerced value per
listed column index, none on the first out-of-range index (IndexError). -/
def extractCols (row : Row) : List ℕ → Option (List ℚ)
| [] => some []
| j :: rest => do
    let c ← row.get? j
    let r ← extractCols row rest
    pure (safe c :: r)

/-- The shared search loop of get_corn_row / get_soy_row / get_wheat_row /
get_wbc_row over an explicit list of row indices: scan in order, on the
first row whose label cell matches extract the declared columns, return
the default series when no row matches, propagate IndexError as none. -/
def findExtractGo (rows : Sheet) (label : String) (lc : ℕ) (cols : List ℕ)
    (dflt : List ℚ) : List ℕ → Option (List ℚ)
| [] => some dflt
| i :: rest =>
    match testAt rows label lc i with
    | none => none
    | some true => extractCols (rows.getD i []) cols
    | some false => findExtractGo rows label lc cols dflt rest

/-- The search loop over Python range(start, stop). -/
def findExtract (rows : Sheet) (label : String) (lc : ℕ) (cols : List ℕ)
    (dflt : List ℚ) (start stop : ℕ) : Option (List ℚ) :=
  findExtractGo rows label lc cols dflt (List.range' start (stop - start))

/-- The bare row-location part of the same loop: index of the first row in
the scanned index list whose label cell matches, some none when no row
matches, none (outer) on IndexError. -/
def locateGo (rows : Sheet) (label : String) (lc : ℕ) : List ℕ → Option (Option ℕ)
| [] => some none
| i :: rest =>
    match testAt rows label lc i with
    | none => none
    | some true => some (some i)
    | some false => locateGo rows label lc rest

/-- Row location over Python range(start, stop). -/
def row_locate (rows : Sheet) (label : String) (lc start stop : ℕ) : Option (Option ℕ) :=
  locateGo rows label lc (List.range' start (stop - start))

/-- What the extractors do with a located row: extract the declared
columns from it, or return the default series when location found none. -/
def locToExtract (rows : Sheet) (cols : List ℕ) (dflt : List ℚ) : Option ℕ → Option (List ℚ)
| some i => extractCols (rows.getD i []) cols
| none => some dflt

/-- get_corn_row(label, start) (lines 86-90): scan rows[start:] for the
first row whose first-column text starts with label, return columns 1-4
coerced, or [0,0,0,0] when no row matches. -/
def get_corn_row (rows : Sheet) (label : String) (start : ℕ) : Option (List ℚ) :=
  findExtract rows label 0 [1, 2, 3, 4] [0, 0, 0, 0] start rows.length

/-- find_section(rows, label) (lines 114-118): index of the first row whose
first-column text starts with label, 0 when no row matches. -/
def find_section (rows : Sheet) (label : String) : Option ℕ :=
  Option.map (fun o => o.getD 0) (locateGo rows label 0 (List.range' 0 rows.length))

/-- Python x or y for an optional int: None and 0 are falsy and fall
through to y. -/
def pyOrNat (x : Option ℕ) (y : ℕ) : ℕ :=
  match x with
  | none => y
  | some n => if n = 0 then y else n

/-- get_soy_row(label, start, end) (lines 124-129). oil_start is the
closure variable captured from find_section(soy_rows, 'SOYBEAN OIL'); the
loop bound is e = end or oil_start or len(soy_rows). -/
def get_soy_row (rows : Sheet) (oil_start : ℕ) (label : String)
    (start : ℕ) (endOpt : Option ℕ) : Option (List ℚ) :=
  findExtract rows label 0 [1, 2, 3, 4] [0, 0, 0, 0] start
    (pyOrNat endOpt (pyOrNat (some oil_start) rows.length))

/-- get_wheat_row(label, start, end) (lines 168-176): scan
range(start, min(end, len(rows))), matching on column 0 and extracting
the sparse top-section columns 4, 6, 9, 11. -/
def get_wheat_row (rows : Sheet) (label : String) (start stop : ℕ) : Option (List ℚ) :=
  findExtract rows label 0 [4, 6, 9, 11] [0, 0, 0, 0] start (min stop rows.length)

/-- get_wbc_row(label, start) (lines 205-212): scan
range(start, min(start+15, len(rows))), matching on column 1 and
extracting the by-class columns 3, 5, 7, 8, 10 (HRW, HRS, SRW, White,
Durum); the no-match default is a 5-element zero list. -/
def get_wbc_row (rows : Sheet) (label : String) (start : ℕ) : Option (List ℚ) :=
  findExtract rows label 1 [3, 5, 7, 8, 10] [0, 0, 0, 0, 0] start
    (min (start + 15) rows.length)

/-- to3(arr) (lines 222-226): a 4-element series [y1, y2, prev, cur]
becomes [y1, y2, cur]; anything else is cut to its first 3 elements. -/
def to3 (arr : List ℚ) : List ℚ :=
  if arr.length = 4 then [arr.getD 0 0, arr.getD 1 0, arr.getD 3 0]
  else arr.take 3

/-- The previous-projection scalar kept for the headline ending-stocks
series (lines 244-246): arr[2] guarded by len(arr) >= 3. -/
def es_prev (arr : List ℚ) : ℚ :=
  if 3 ≤ arr.length then arr.getD 2 0 else 0

/-- A value inside a commodity mapping: a list of numbers (a series), a
list of strings (the by-class labels), or a nested mapping. -/
inductive Val where
| series (l : List ℚ)
| strs (l : List String)
| dict (entries : List (String × Val))

mutual

/-- process_dict (lines 232-241) on one value: nested dicts recurse,
all-numeric lists of length at least 4 are reshaped with to3, everything
else passes through unchanged. -/
def process_val : Val → Val
| Val.series l => if 4 ≤ l.length then Val.series (to3 l) else Val.series l
| Val.strs l => Val.strs l
| Val.dict es => Val.dict (process_dict es)

/-- process_dict over the entries of a mapping. -/
def process_dict : List (String × Val) → List (String × Val)
| [] => []
| (k, v) :: rest => (k, process_val v) :: process_dict rest

end

/-- The corn schema (lines 93-109): the declared output keys with the row
label prefix each one is located by. -/
def cornSchema : List (String × String) :=
  [("price", "Avg. Farm Price"), ("planted", "Area Planted"),
   ("harvested", "Area Harvested"), ("yield", "Yield per"),
   ("begStocks", "Beginning Stocks"), ("production", "Production"),
   ("imports", "Imports"), ("supplyTotal", "Supply, Total"),
   ("feedResidual", "Feed and Residual"), ("fsi", "Food, Seed & Industrial"),
   ("ethanol", "Ethanol"), ("domesticTotal", "Domestic, Total"),
   ("exports", "Exports"), ("useTotal", "Use, Total"),
   ("endStocks", "Ending Stocks")]

/-- The corn dict literal evaluated left to right: one get_corn_row call
per schema entry, the first raised IndexError aborting the whole build. -/
def buildSchema (rows : Sheet) (cs : ℕ) : List (String × String) → Option (List (String × List ℚ))
| [] => some []
| (k, label) :: rest => do
    let s ← get_corn_row rows label cs
    let r ← buildSchema rows cs rest
    pure ((k, s) :: r)

/-- The corn CommodityRecord before normalization. -/
def buildCorn (rows : Sheet) (cs : ℕ) : Option (List (String × List ℚ)) :=
  buildSchema rows cs cornSchema

/-- prev_months (line 249): 13-entry table, index 0 a sentinel. -/
def prev_months : List String :=
  ["", "Dec", "Jan", "Feb", "Mar", "Apr", "May", "Jun", "Jul", "Aug", "Sep", "Oct", "Nov"]

/-- cur_months (line 250): 13-entry table, index 0 a sentinel. -/
def cur_months : List String :=
  ["", "Jan", "Feb", "Mar", "Apr", "May", "Jun", "Jul", "Aug", "Sep", "Oct", "Nov", "Dec"]

/-- result['years'] (line 255): extract_data receives the requested year
and month, but the three period labels are this literal constant list. -/
def result_years (year month : ℕ) : List String :=
  ["2023/24", "2024/25 Est.", "2025/26 Proj."]

/-- result['prevMonth'] (line 256): prev_months[month], none modelling the
IndexError a month outside 0..12 would raise. -/
def result_prevMonth (month : ℕ) : Option String :=
  prev_months.get? month

/-- result['curMonth'] (line 257): cur_months[month]. -/
def result_curMonth (month : ℕ) : Option String :=
  cur_months.get? month

/-- Decimal digit character. -/
def digitChar (d : ℕ) : Char := Char.ofNat (48 + d)

/-- Decimal rendering of a natural number, fuel-driven. -/
def natStrGo : ℕ → ℕ → List Char
| 0, _ => []
| f + 1, n =>
    if n < 10 then [digitChar n]
    else natStrGo f (n / 10) ++ [digitChar (n % 10)]

/-- Decimal rendering of a natural number. -/
def natStr (n : ℕ) : String := String.mk (natStrGo (n + 1) n)

/-- Two-digit rendering, zero padded. -/
def twoDigit (n : ℕ) : String :=
  if n < 10 then String.mk ['0', digitChar n] else natStr n

/-- Modelled from the spec: the two-part marketing-year label of a crop
year y, e.g. 2023 renders as 2023/24. -/
def myLabel (y : ℕ) : String :=
  natStr y ++ "/" ++ twoDigit ((y + 1) % 100)

/-- Modelled from the spec: the period labels the claim says extract_data
computes from the requested year - [year-2 label, year-1 label Est.,
current-year label Proj.]. This definition follows the spec words and is
compared against result_years, which is translated from the source. -/
def specYearLabels (year : ℕ) : List String :=
  [myLabel (year - 2), myLabel (year - 1) ++ " Est.", myLabel year ++ " Proj."]

/-- All label tests in columns lc of rows start..stop-1 succeed and come
out false: no row of the range matches, and none raises. -/
def noMatchIn (rows : Sheet) (label : String) (lc start stop : ℕ) : Bool :=
  (List.range' start (stop - start)).all
    (fun i => testAt rows label lc i == some false)

/-- Every row of the sheet has at least w columns. -/
def sheetWide (rows : Sheet) (w : ℕ) : Bool :=
  rows.all (fun r => decide (w ≤ r.length))

/-- A soybeans sheet with the standard layout: main block, then the oil
sub-section (header at index 2), then the meal sub-section (header at
index 4) with a meal Production row at index 5. -/
def mealSheet : Sheet :=
  [[Cell.text "SOYBEANS", Cell.empty, Cell.empty, Cell.empty, Cell.empty],
   [Cell.text "Production", Cell.num 1, Cell.num 2, Cell.num 3, Cell.num 4],
   [Cell.text "SOYBEAN OIL", Cell.empty, Cell.empty, Cell.empty, Cell.empty],
   [Cell.text "Production", Cell.num 5, Cell.num 6, Cell.num 7, Cell.num 8],
   [Cell.text "SOYBEAN MEAL", Cell.empty, Cell.empty, Cell.empty, Cell.empty],
   [Cell.text "Production", Cell.num 9, Cell.num 10, Cell.num 11, Cell.num 12]]

/-- A soybeans sheet whose meal header is absent: the oil header is at
index 2 and an oil Production row with values 5..8 at index 3. -/
def noMealSheet : Sheet :=
  [[Cell.text "SOYBEANS", Cell.empty, Cell.empty, Cell.empty, Cell.empty],
   [Cell.text "Production", Cell.num 1, Cell.num 2, Cell.num 3, Cell.num 4],
   [Cell.text "SOYBEAN OIL", Cell.empty, Cell.empty, Cell.empty, Cell.empty],
   [Cell.text "Production", Cell.num 5, Cell.num 6, Cell.num 7, Cell.num 8]]

/-- A wheat by-class block: the Production row carries its label in
column 1 and one value per class in columns 3, 5, 7, 8, 10. -/
def wbcSheet : Sheet :=
  [[Cell.text "U.S. Wheat by Class:", Cell.empty, Cell.empty, Cell.empty, Cell.empty,
    Cell.empty, Cell.empty, Cell.empty, Cell.empty, Cell.empty, Cell.empty],
   [Cell.empty, Cell.text "Production", Cell.empty, Cell.num 10, Cell.empty,
    Cell.num 20, Cell.empty, Cell.num 30, Cell.num 40, Cell.empty, Cell.num 50]]

/-- A well-formed 5-column wheat sheet whose Production row is matched,
too narrow for the top-section column indices 4, 6, 9, 11. -/
def narrowWheat : Sheet :=
  [[Cell.text "Production", Cell.num 1, Cell.num 2, Cell.num 3, Cell.num 4]]

/-- A well-formed 4-column sheet whose by-class Production row is matched,
too narrow for the by-class column indices 3, 5, 7, 8, 10. -/
def narrowWbc : Sheet :=
  [[Cell.empty, Cell.text "Production", Cell.num 1, Cell.num 2]]

/-- A 12-column sheet, wide enough for both wheat extractors. -/
def wideSheet : Sheet :=
  [[Cell.text "Production", Cell.num 1, Cell.empty, Cell.num 2, Cell.num 3, Cell.empty,
    Cell.num 4, Cell.empty, Cell.empty, Cell.num 5, Cell.num 6, Cell.num 7]]

/-- A 12-row sheet with two rows whose labels start with Production, at
indices 3 and 9. -/
def tieSheet : Sheet :=
  [[Cell.text "WHEAT", Cell.empty, Cell.empty, Cell.empty, Cell.empty],
   [Cell.text "Area Planted", Cell.num 90, Cell.num 91, Cell.num 92, Cell.num 93],
   [Cell.text "Area Harvested", Cell.num 80, Cell.num 81, Cell.num 82, Cell.num 83],
   [Cell.text "Production", Cell.num 1, Cell.num 2, Cell.num 3, Cell.num 4],
   [Cell.text "Beginning Stocks", Cell.num 10, Cell.num 11, Cell.num 12, Cell.num 13],
   [Cell.text "Imports", Cell.num 20, Cell.num 21, Cell.num 22, Cell.num 23],
   [Cell.text "Supply, Total", Cell.num 30, Cell.num 31, Cell.num 32, Cell.num 33],
   [Cell.text "Exports", Cell.num 40, Cell.num 41, Cell.num 42, Cell.num 43],
   [Cell.text "Use, Total", Cell.num 50, Cell.num 51, Cell.num 52, Cell.num 53],
   [Cell.text "Production footnote", Cell.num 5, Cell.num 6, Cell.num 7, Cell.num 8],
   [Cell.text "Ending Stocks", Cell.num 60, Cell.num 61, Cell.num 62, Cell.num 63],
   [Cell.text "Avg. Farm Price", Cell.num 70, Cell.num 71, Cell.num 72, Cell.num 73]]

/-- A corn page containing only a header row, so that no schema label
matches any row. -/
def w7Sheet : Sheet := [[Cell.text "CORN HIGHLIGHTS"]]

/-- The corn record built from w7Sheet: every schema key bound to the
zero-filled raw series. -/
def w7Rec : List (String × List ℚ) :=
  cornSchema.map (fun kv => (kv.1, ([0, 0, 0, 0] : List ℚ)))

/-- If no index in [start, stop) matches, every label test in that range
evaluates successfully to false. -/
theorem testAt_false_of_noMatchIn (rows : Sheet) (label : String) (lc start stop : ℕ)
    (h : noMatchIn rows label lc start stop = true) :
    ∀ j, start ≤ j → j < stop → testAt rows label lc j = some false := by
  intro j h1 h2
  unfold noMatchIn at h
  rw [List.all_eq_true] at h
  have hm : j ∈ List.range' start (stop - start) := by
    rw [List.mem_range'_1]
    omega
  exact eq_of_beq (h j hm)

/-- The location loop returns not-found when every scanned test is false. -/
theorem locateGo_all_false (rows : Sheet) (label : String) (lc : ℕ) :
    ∀ is : List ℕ, (∀ i ∈ is, testAt rows label lc i = some false) →
    locateGo rows label lc is = some none := by
  intro is
  induction is with
  | nil => intro _; rfl
  | cons i rest ih =>
      intro h
      have hi : testAt rows label lc i = some false := h i (by simp)
      have hr := ih (fun j hj => h j (by simp [hj]))
      simp [locateGo, hi, hr]

/-- The extraction loop returns the default when every scanned test is
false. -/
theorem findExtractGo_all_false (rows : Sheet) (label : String) (lc : ℕ)
    (cols : List ℕ) (dflt : List ℚ) :
    ∀ is : List ℕ, (∀ i ∈ is, testAt rows label lc i = some false) →
    findExtractGo rows label lc cols dflt is = some dflt := by
  intro is
  induction is with
  | nil => intro _; rfl
  | cons i rest ih =>
      intro h
      have hi : testAt rows label lc i = some false := h i (by simp)
      have hr := ih (fun j hj => h j (by simp [hj]))
      simp [findExtractGo, hi, hr]

/-- The extraction loop factors through the bare location loop. -/
theorem findExtractGo_eq_locate (rows : Sheet) (label : String) (lc : ℕ)
    (cols : List ℕ) (dflt : List ℚ) :
    ∀ is : List ℕ, findExtractGo rows label lc cols dflt is =
      Option.bind (locateGo rows label lc is) (locToExtract rows cols dflt) := by
  intro is
  induction is with
  | nil => rfl
  | cons i rest ih =>
      cases h : testAt rows label lc i with
      | none => simp [findExtractGo, locateGo, h]
      | some b =>
          cases b with
          | true => simp [findExtractGo, locateGo, h, locToExtract]
          | false => simp [findExtractGo, locateGo, h, ih]

/-- The location loop over range(start, n) returns the first matching
index: if i matches and everything before it tests false, i is returned. -/
theorem locateGo_range'_first (rows : Sheet) (label : String) (lc : ℕ) :
    ∀ n start i, start ≤ i → i < start + n →
    testAt rows label lc i = some true →
    (∀ j, start ≤ j → j < i → testAt rows label lc j = some false) →
    locateGo rows label lc (List.range' start n) = some (some i) := by
  intro n
  induction n with
  | zero => intro start i h1 h2 _ _; omega
  | succ n ih =>
      intro start i h1 h2 h3 h4
      rw [List.range'_succ]
      by_cases hsi : start = i
      · subst hsi
        simp [locateGo, h3]
      · have hlt : start < i := lt_of_le_of_ne h1 hsi
        have hfalse := h4 start le_rfl hlt
        simp only [locateGo, hfalse]
        exact ih (start + 1) i hlt (by omega) h3 (fun j hj1 hj2 => h4 j (by omega) hj2)

/-- A no-match search over the whole remaining sheet yields the zero raw
series. -/
theorem get_corn_row_default (rows : Sheet) (label : String) (cs : ℕ)
    (h : noMatchIn rows label 0 cs rows.length = true) :
    get_corn_row rows label cs = some [0, 0, 0, 0] := by
  unfold get_corn_row findExtract
  apply findExtractGo_all_false
  intro i hi
  rw [List.mem_range'_1] at hi
  exact testAt_false_of_noMatchIn rows label 0 cs rows.length h i hi.1 (by omega)

/-- The built record lists exactly the schema keys, in order. -/
theorem buildSchema_keys (rows : Sheet) (cs : ℕ) :
    ∀ sch rec, buildSchema rows cs sch = some rec →
    rec.map Prod.fst = sch.map Prod.fst := by
  intro sch
  induction sch with
  | nil =>
      intro rec h
      simp [buildSchema] at h
      subst h
      rfl
  | cons kv rest ih =>
      intro rec h
      obtain ⟨k0, l0⟩ := kv
      cases hg : get_corn_row rows l0 cs with
      | none => simp [buildSchema, hg] at h
      | some s0 =>
          cases hb : buildSchema rows cs rest with
          | none => simp [buildSchema, hg, hb] at h
          | some r =>
              simp only [buildSchema, hg, hb, Option.bind_eq_bind, Option.some_bind,
                Option.pure_def, Option.some.injEq] at h
              subst h
              simp [ih r hb]

/-- A schema entry whose row search returns series s appears bound to s in
the built record. -/
theorem buildSchema_mem (rows : Sheet) (cs : ℕ) :
    ∀ sch rec (k label : String) (s : List ℚ), buildSchema rows cs sch = some rec →
    (k, label) ∈ sch → get_corn_row rows label cs = some s →
    (k, s) ∈ rec := by
  intro sch
  induction sch with
  | nil => intro rec k label s _ hmem _; simp at hmem
  | cons kv rest ih =>
      intro rec k label s h hmem hs
      obtain ⟨k0, l0⟩ := kv
      cases hg : get_corn_row rows l0 cs with
      | none => simp [buildSchema, hg] at h
      | some s0 =>
          cases hb : buildSchema rows cs rest with
          | none => simp [buildSchema, hg, hb] at h
          | some r =>
              simp only [buildSchema, hg, hb, Option.bind_eq_bind, Option.some_bind,
                Option.pure_def, Option.some.injEq] at h
              subst h
              rcases List.mem_cons.mp hmem with heq | hmem2
              · injection heq with hk hl
                subst hk
                subst hl
                rw [hg] at hs
                injection hs with hss
                subst hss
                exact List.mem_cons_self _ _
              · exact List.mem_cons_of_mem _ (ih r k label s hb hmem2 hs)

/-- Column extraction succeeds whenever every requested index is within
the row. -/
theorem extractCols_isSome (row : Row) :
    ∀ cols : List ℕ, (∀ j ∈ cols, j < row.length) →
    (extractCols row cols).isSome = true := by
  intro cols
  induction cols with
  | nil => intro _; rfl
  | cons j rest ih =>
      intro h
      have hj : j < row.length := h j (by simp)
      have hc : row.get? j = some (row.get ⟨j, hj⟩) := List.get?_eq_get hj
      have hrest := ih (fun j2 hj2 => h j2 (by simp [hj2]))
      obtain ⟨v, hv⟩ := Option.isSome_iff_exists.mp hrest
      simp only [extractCols, hc, hv, Option.bind_eq_bind, Option.some_bind,
        Option.pure_def]
      rfl

/-- The extraction loop never raises when every scanned row index is in
range and every row is at least w columns wide, w covering the label
column and all extracted columns. -/
theorem findExtractGo_isSome (rows : Sheet) (label : String) (lc : ℕ)
    (cols : List ℕ) (dflt : List ℚ) (w : ℕ)
    (hrows : ∀ r ∈ rows, w ≤ r.length) (hlc : lc < w)
    (hcols : ∀ j ∈ cols, j < w) :
    ∀ is : List ℕ, (∀ i ∈ is, i < rows.length) →
    (findExtractGo rows label lc cols dflt is).isSome = true := by
  intro is
  induction is with
  | nil => intro _; rfl
  | cons i rest ih =>
      intro h
      have hi : i < rows.length := h i (by simp)
      have hrow : rows.getD i [] = rows.get ⟨i, hi⟩ := by
        rw [List.getD_eq_get?, List.get?_eq_get hi]
        rfl
      have hw : w ≤ (rows.getD i []).length := by
        rw [hrow]
        exact hrows _ (List.get_mem rows i hi)
      have hlt : lc < (rows.getD i []).length := by omega
      have hc : (rows.getD i []).get? lc =
          some ((rows.getD i []).get ⟨lc, hlt⟩) := List.get?_eq_get hlt
      have hb : testAt rows label lc i =
          some (pyStartswith (pyStrip (cellStr ((rows.getD i []).get ⟨lc, hlt⟩))) label) := by
        unfold testAt
        rw [hc]
        rfl
      cases hbool : pyStartswith (pyStrip (cellStr ((rows.getD i []).get ⟨lc, hlt⟩))) label with
      | false =>
          rw [hbool] at hb
          have hrest := ih (fun j hj => h j (by simp [hj]))
          simp only [findExtractGo, hb]
          exact hrest
      | true =>
          rw [hbool] at hb
          have hext := extractCols_isSome (rows.getD i []) cols
            (fun j hj => by have := hcols j hj; omega)
          simp only [findExtractGo, hb]
          exact hext

/-- Unfolds sheetWide into the per-row width bound. -/
theorem sheetWide_spec (rows : Sheet) (w : ℕ) (h : sheetWide rows w = true) :
    ∀ r ∈ rows, w ≤ r.length := by
  unfold sheetWide at h
  rw [List.all_eq_true] at h
  intro r hr
  exact of_decide_eq_true (h r hr)

/-- C1: on a soybeans sheet with the meal header (index 4) after the oil
header (index 2), the meal-section calls get_soy_row(label, meal_start)
leave end at None, so the loop bound e = end or oil_start or len falls
back to oil_start = 2. The scanned range(4, 2) is empty and the meal
Production metric returns the zero default even though a matching meal
Production row with values 9..12 sits at index 5; a bound that covered
the rest of the sheet, as the claim describes, would have extracted it. -/
theorem c1_meal_search_empty :
    find_section mealSheet "SOYBEAN OIL" = some 2 ∧
    find_section mealSheet "SOYBEAN MEAL" = some 4 ∧
    testAt mealSheet "Production" 0 5 = some true ∧
    get_soy_row mealSheet 2 "Production" 4 none = some [0, 0, 0, 0] ∧
    get_soy_row mealSheet 2 "Production" 4 (some (List.length mealSheet)) =
      some [9, 10, 11, 12] :=
  ⟨rfl, rfl, rfl, rfl, rfl⟩

/-- C2: the by-class Production row extracts five per-class values, but
process_dict reshapes every all-numeric list of length at least 4, so to3
truncates the 5-element class series to its first 3 entries while the
5-element labels list passes through unchanged - the claim that the class
series reaches the output with one value per class label fails. -/
theorem c2_byclass_truncated :
    get_wbc_row wbcSheet "Production" 1 = some [10, 20, 30, 40, 50] ∧
    process_val (Val.dict [("labels", Val.strs ["HRW", "HRS", "SRW", "White", "Durum"]),
        ("production", Val.series [10, 20, 30, 40, 50])]) =
      Val.dict [("labels", Val.strs ["HRW", "HRS", "SRW", "White", "Durum"]),
        ("production", Val.series [10, 20, 30])] := by
  constructor
  · rfl
  · simp [process_val, process_dict, to3]

/-- C3 counterexample: at requested year 2024 the claim demands the
shifted labels 2022/23, 2023/24 Est., 2024/25 Proj., but extract_data
emits its hardcoded list, unchanged from year 2025. -/
theorem c3_years_not_shifted :
    result_years 2024 2 ≠ specYearLabels 2024 ∧
    specYearLabels 2024 = ["2022/23", "2023/24 Est.", "2024/25 Proj."] ∧
    result_years 2024 2 = ["2023/24", "2024/25 Est.", "2025/26 Proj."] :=
  ⟨by decide, by decide, rfl⟩

/-- C3 amended: the three period labels are the fixed constant list
2023/24, 2024/25 Est., 2025/26 Proj. for every requested year and month;
they coincide with the year-derived marketing-year labels of the claim
exactly when the requested year is 2025. -/
theorem c3_years_constant (year month : ℕ) :
    result_years year month = ["2023/24", "2024/25 Est.", "2025/26 Proj."] ∧
    result_years 2025 month = specYearLabels 2025 := by
  refine ⟨rfl, ?_⟩
  show ["2023/24", "2024/25 Est.", "2025/26 Proj."] = specYearLabels 2025
  decide

/-- C4: normalizing any 4-element raw series s yields the 3-element
published series built from indices 0, 1 and 3, and the retained
previous-projection scalar for the headline ending-stocks metric is
index 2 of the raw series. -/
theorem c4_to3_normalization (s : List ℚ) (h : s.length = 4) :
    to3 s = [s.getD 0 0, s.getD 1 0, s.getD 3 0] ∧
    (to3 s).length = 3 ∧
    es_prev s = s.getD 2 0 := by
  refine ⟨by simp [to3, h], by simp [to3, h], by simp [es_prev, h]⟩

/-- C4 witness at the concrete raw series 1, 2, 3, 4. -/
theorem c4_to3_normalization_witness :
    ([1, 2, 3, 4] : List ℚ).length = 4 ∧
    (to3 [1, 2, 3, 4] = [([1, 2, 3, 4] : List ℚ).getD 0 0,
        ([1, 2, 3, 4] : List ℚ).getD 1 0, ([1, 2, 3, 4] : List ℚ).getD 3 0] ∧
      (to3 ([1, 2, 3, 4] : List ℚ)).length = 3 ∧
      es_prev [1, 2, 3, 4] = ([1, 2, 3, 4] : List ℚ).getD 2 0) :=
  ⟨rfl, c4_to3_normalization [1, 2, 3, 4] rfl⟩

/-- C5 counterexample: with the meal header absent, find_section returns
0; but passing that 0 as the end bound of the oil-section searches does
not degrade to searching the whole remaining sheet - 0 is falsy, the
bound falls back to oil_start = 2, the scanned range(2, 2) is empty, and
the oil Production metric returns the zero default even though a matching
row with values 5..8 sits at index 3, which a whole-sheet search finds. -/
theorem c5_zero_bound_not_unbounded :
    find_section noMealSheet "SOYBEAN MEAL" = some 0 ∧
    testAt noMealSheet "Production" 0 3 = some true ∧
    get_soy_row noMealSheet 2 "Production" 2 (some 0) = some [0, 0, 0, 0] ∧
    get_soy_row noMealSheet 2 "Production" 2 (some (List.length noMealSheet)) =
      some [5, 6, 7, 8] :=
  ⟨rfl, rfl, rfl, rfl⟩

/-- C5 amended: when a declared sub-section label is absent find_section
returns 0; a 0 used as the start bound searches from the top of the
sheet, but a 0 passed as the end bound of get_soy_row is falsy and falls
back to oil_start (or to the sheet length when oil_start is itself 0), so
with the meal header absent and the oil header at a positive index the
oil metrics are searched over the empty range from oil_start to oil_start
and default to the zero series. -/
theorem c5_zero_end_bound (rows : Sheet) (oil : ℕ) (label lbl : String) (start : ℕ)
    (habs : noMatchIn rows lbl 0 0 rows.length = true) (hoil : oil ≠ 0) :
    find_section rows lbl = some 0 ∧
    get_soy_row rows oil label start (some 0) =
      findExtract rows label 0 [1, 2, 3, 4] [0, 0, 0, 0] start
        (if oil = 0 then rows.length else oil) ∧
    get_soy_row rows oil label oil (some 0) = some [0, 0, 0, 0] := by
  refine ⟨?_, ?_, ?_⟩
  · unfold find_section
    rw [locateGo_all_false rows lbl 0 _ ?_]
    · rfl
    · intro i hi
      rw [List.mem_range'_1] at hi
      exact testAt_false_of_noMatchIn rows lbl 0 0 rows.length habs i hi.1 (by omega)
  · unfold get_soy_row
    simp [pyOrNat, hoil]
  · unfold get_soy_row findExtract
    simp [pyOrNat, hoil, Nat.sub_self, List.range', findExtractGo]

/-- C5 witness: the amended statement applied at the concrete sheet whose
meal header is absent and whose oil header sits at index 2. -/
theorem c5_zero_end_bound_witness :
    noMatchIn noMealSheet "SOYBEAN MEAL" 0 0 (List.length noMealSheet) = true ∧
    (2 : ℕ) ≠ 0 ∧
    (find_section noMealSheet "SOYBEAN MEAL" = some 0 ∧
      get_soy_row noMealSheet 2 "Production" 2 (some 0) =
        findExtract noMealSheet "Production" 0 [1, 2, 3, 4] [0, 0, 0, 0] 2
          (if (2 : ℕ) = 0 then List.length noMealSheet else 2) ∧
      get_soy_row noMealSheet 2 "Production" 2 (some 0) = some [0, 0, 0, 0]) :=
  ⟨by decide, by decide,
    c5_zero_end_bound noMealSheet 2 "Production" "SOYBEAN MEAL" 2 (by decide) (by decide)⟩

/-- C6: the row locator embodied in the extraction loops returns the
first index in [start, stop) whose first-column text, stripped of
surrounding whitespace, starts with the label under the case-sensitive
exact-prefix test: if i matches and every earlier index in the range
tests false, i is returned, so a later matching row is never used; and
get_corn_row is exactly that locator followed by extraction of columns
1-4 with the zero default. -/
theorem c6_row_locator_first_match (rows : Sheet) (label : String) (start stop i : ℕ)
    (h1 : start ≤ i) (h2 : i < stop)
    (h3 : testAt rows label 0 i = some true)
    (h4 : noMatchIn rows label 0 start i = true) :
    row_locate rows label 0 start stop = some (some i) ∧
    get_corn_row rows label start =
      Option.bind (row_locate rows label 0 start rows.length)
        (locToExtract rows [1, 2, 3, 4] [0, 0, 0, 0]) := by
  constructor
  · unfold row_locate
    exact locateGo_range'_first rows label 0 (stop - start) start i h1 (by omega) h3
      (fun j hj1 hj2 => testAt_false_of_noMatchIn rows label 0 start i h4 j hj1 hj2)
  · unfold get_corn_row findExtract row_locate
    exact findExtractGo_eq_locate rows label 0 [1, 2, 3, 4] [0, 0, 0, 0] _

/-- C6 witness: on the 12-row sheet with Production rows at indices 3 and
9, the locator over [0, 12) returns index 3. -/
theorem c6_row_locator_first_match_witness :
    (0 : ℕ) ≤ 3 ∧ (3 : ℕ) < 12 ∧
    testAt tieSheet "Production" 0 3 = some true ∧
    noMatchIn tieSheet "Production" 0 0 3 = true ∧
    testAt tieSheet "Production" 0 9 = some true ∧
    (row_locate tieSheet "Production" 0 0 12 = some (some 3) ∧
      get_corn_row tieSheet "Production" 0 =
        Option.bind (row_locate tieSheet "Production" 0 0 (List.length tieSheet))
          (locToExtract tieSheet [1, 2, 3, 4] [0, 0, 0, 0])) :=
  ⟨by decide, by decide, by decide, by decide, by decide,
    c6_row_locator_first_match tieSheet "Production" 0 12 3 (by decide) (by decide)
      (by decide) (by decide)⟩

/-- C7: whenever the corn record builds, its keys are exactly the schema
keys in order; a metric whose label matches no row of the searched range
is bound to the zero-filled raw series, which the normalizer turns into
the 3-element zero series. -/
theorem c7_schema_keys_total (rows : Sheet) (cs : ℕ) (rec : List (String × List ℚ))
    (h : buildCorn rows cs = some rec) (k label : String)
    (hk : (k, label) ∈ cornSchema)
    (hnm : noMatchIn rows label 0 cs rows.length = true) :
    rec.map Prod.fst = cornSchema.map Prod.fst ∧
    (k, ([0, 0, 0, 0] : List ℚ)) ∈ rec ∧
    process_val (Val.series [0, 0, 0, 0]) = Val.series [0, 0, 0] := by
  have hz : get_corn_row rows label cs = some [0, 0, 0, 0] :=
    get_corn_row_default rows label cs hnm
  exact ⟨buildSchema_keys rows cs cornSchema rec h,
    buildSchema_mem rows cs cornSchema rec k label [0, 0, 0, 0] h hk hz,
    by simp [process_val, to3]⟩

/-- C7 witness: on a corn page holding only a header row, the record
builds, the price key is present, and its unmatched label defaults to the
zero series. -/
theorem c7_schema_keys_total_witness :
    buildCorn w7Sheet 0 = some w7Rec ∧
    ("price", "Avg. Farm Price") ∈ cornSchema ∧
    noMatchIn w7Sheet "Avg. Farm Price" 0 0 (List.length w7Sheet) = true ∧
    (w7Rec.map Prod.fst = cornSchema.map Prod.fst ∧
      ("price", ([0, 0, 0, 0] : List ℚ)) ∈ w7Rec ∧
      process_val (Val.series [0, 0, 0, 0]) = Val.series [0, 0, 0]) :=
  ⟨by decide, by decide, by decide,
    c7_schema_keys_total w7Sheet 0 w7Rec (by decide) "price" "Avg. Farm Price"
      (by decide) (by decide)⟩

/-- C8: cell coercion is a total function to numbers - the empty cell and
the empty string coerce to 0, unparseable text coerces to 0, numeric text
12.5 coerces to the number 12.5, and a numeric cell passes through
unchanged, 42 in particular. -/
theorem c8_safe_coercion :
    safe Cell.empty = 0 ∧
    safe (Cell.text "") = 0 ∧
    safe (Cell.text "N/A") = 0 ∧
    safe (Cell.text "12.5") = 12.5 ∧
    safe (Cell.num 42) = 42 ∧
    (∀ x : ℚ, safe (Cell.num x) = x) := by
  refine ⟨rfl, rfl, by decide, ?_, rfl, fun x => rfl⟩
  have h : pyFloatOfString "12.5" = some ((12 : ℚ) + 5 / 10 ^ 1) := rfl
  have h2 : safe (Cell.text "12.5") = (pyFloatOfString "12.5").getD 0 := rfl
  rw [h2, h]
  norm_num

/-- C9: the previous-month and current-month short labels come from the
fixed lookup tables with December wraparound - for every month m in
1..12, prev_months at m equals cur_months at the wrapped m-1; in
particular month 2 yields Jan and Feb, and month 1 yields Dec. -/
theorem c9_month_lookup (m : ℕ) (h1 : 1 ≤ m) (h2 : m ≤ 12) :
    result_curMonth m = cur_months.get? m ∧
    result_prevMonth m = cur_months.get? (if m = 1 then 12 else m - 1) ∧
    result_prevMonth 2 = some "Jan" ∧
    result_curMonth 2 = some "Feb" ∧
    result_prevMonth 1 = some "Dec" := by
  refine ⟨rfl, ?_, rfl, rfl, rfl⟩
  interval_cases m <;> rfl

/-- C9 witness at the concrete month 2. -/
theorem c9_month_lookup_witness :
    (1 : ℕ) ≤ 2 ∧ (2 : ℕ) ≤ 12 ∧
    (result_curMonth 2 = cur_months.get? 2 ∧
      result_prevMonth 2 = cur_months.get? (if (2 : ℕ) = 1 then 12 else 2 - 1) ∧
      result_prevMonth 2 = some "Jan" ∧
      result_curMonth 2 = some "Feb" ∧
      result_prevMonth 1 = some "Dec") :=
  ⟨by decide, by decide, c9_month_lookup 2 (by decide) (by decide)⟩

/-- C10: the wheat extractors index fixed columns with no bounds check -
on any sheet at least 12 columns wide both are total, while on a
well-formed 5-column sheet whose Production row is matched the top
extractor raises (none) instead of degrading to a zero series, and
likewise the by-class extractor on a 4-column sheet. -/
theorem c10_wheat_column_bounds (rows : Sheet) (label : String) (start stop : ℕ)
    (hw : sheetWide rows 12 = true) :
    (get_wheat_row rows label start stop).isSome = true ∧
    (get_wbc_row rows label start).isSome = true ∧
    get_wheat_row narrowWheat "Production" 0 30 = none ∧
    get_wbc_row narrowWbc "Production" 0 = none := by
  have hrows := sheetWide_spec rows 12 hw
  refine ⟨?_, ?_, rfl, rfl⟩
  · unfold get_wheat_row findExtract
    apply findExtractGo_isSome rows label 0 [4, 6, 9, 11] [0, 0, 0, 0] 12 hrows
      (by omega) (by decide)
    intro i hi
    rw [List.mem_range'_1] at hi
    have := Nat.min_le_right stop rows.length
    omega
  · unfold get_wbc_row findExtract
    apply findExtractGo_isSome rows label 1 [3, 5, 7, 8, 10] [0, 0, 0, 0, 0] 12 hrows
      (by omega) (by decide)
    intro i hi
    rw [List.mem_range'_1] at hi
    have := Nat.min_le_right (start + 15) rows.length
    omega

/-- C10 witness: both wheat extractors succeed on a concrete 12-column
sheet. -/
theorem c10_wheat_column_bounds_witness :
    sheetWide wideSheet 12 = true ∧
    ((get_wheat_row wideSheet "Production" 0 30).isSome = true ∧
      (get_wbc_row wideSheet "Production" 0).isSome = true ∧
      get_wheat_row narrowWheat "Production" 0 30 = none ∧
      get_wbc_row narrowWbc "Production" 0 = none) :=
  ⟨by decide, c10_wheat_column_bounds wideSheet "Production" 0 30 (by decide)⟩

end Wasde
